import Mathlib

/-!
Verification of the trace-to-execution dispatch pipeline of
`jax/_src/dispatch.py`: argument fingerprinting, compilation-cache keying,
device/replica resolution, program pruning, trivial-vs-compiled artifacts,
and the call-time type check.  Machine values are modelled abstractly: a
buffer records its abstract type (dtype + shape), an opaque payload, and
whether it contains a NaN or an Inf, which is all the dispatch layer itself
inspects of a value.
-/

set_option autoImplicit false

namespace JaxDispatch

/-- A device handle (`xla_client.Device`): an opaque comparable id. -/
abbrev Device := Nat

/-- An abstract value (`core.AbstractValue`): `ShapedArray` with dtype and
shape, or the special `AbstractUnit` / `AbstractToken` tags. -/
inductive Aval where
  | shaped : String → List Nat → Aval
  | unit : Aval
  | token : Aval
deriving DecidableEq, Repr

/-- The dtypes for which `dtypes.issubdtype(t, np.inexact)` holds. -/
def isInexactDtype (d : String) : Bool :=
  d = "float16" || d = "bfloat16" || d = "float32" || d = "float64" ||
  d = "complex64" || d = "complex128"

/-- Whether `_check_special` inspects a buffer of this xla shape for
NaN/Inf (only inexact element types are checked). -/
def avalInexact : Aval → Bool
  | .shaped d _ => isInexactDtype d
  | .unit => false
  | .token => false

/-- A runtime value / device buffer.  `aval` is what `xla.abstractify`
returns for it, `payload` stands for the actual bits, `hasNan` / `hasInf`
record whether `np.isnan` / `np.isinf` find anything, `isDeviceArray`
models `device_array.type_is_device_array`, and `device` is the sticky
`._device` attribute used by `arg_spec`. -/
structure Value where
  aval : Aval
  payload : Nat
  hasNan : Bool := false
  hasInf : Bool := false
  isDeviceArray : Bool := false
  device : Option Device := none
deriving DecidableEq, Repr

/-- The fixed value `core.unit`. -/
def unitValue : Value := { aval := .unit, payload := 0 }

/-- The fixed value `core.token`. -/
def tokenValue : Value := { aval := .token, payload := 0 }

/-- A placeholder value (never produced by a well-formed run). -/
def dummyValue : Value := { aval := .unit, payload := 0 }

/-- `arg_spec(x) = (abstractify(x), x._device or None)`. -/
def arg_spec (x : Value) : Aval × Option Device := (x.aval, x.device)

/-- A primitive (`core.Primitive`): a name plus whether it belongs to
`xla._initial_style_primitives`. -/
structure Prim where
  name : String
  initialStyle : Bool
deriving DecidableEq, Repr

/-- An operand of an equation or an output of a jaxpr: a variable
(`core.Var`, encoded by a positive id) or a literal (`core.Literal`). -/
inductive Atom where
  | var : Nat → Atom
  | lit : Value → Atom
deriving DecidableEq, Repr

/-- The variable id of an atom, when it is a variable. -/
def atomVar : Atom → Option Nat
  | .var v => some v
  | .lit _ => none

mutual
/-- `core.Jaxpr`: constvars, invars, outvars (atoms), equations.
Variables are distinct Python objects; we encode program variables as
positive naturals and reserve `0` for the distinguished `core.unitvar`. -/
inductive Jaxpr where
  | mk : List Nat → List Nat → List Atom → List Eqn → Jaxpr

/-- `core.JaxprEqn`: primitive, input atoms, output variables, and the
parameters the dispatch layer reads: the optional `axis_size` param, the
optional `call_jaxpr` param, and any further jaxpr-valued params
(traversed by `core.subjaxprs` / `core.traverse_jaxpr_params`). -/
inductive Eqn where
  | mk : Prim → List Atom → List Nat → Option Nat → Option Jaxpr → List Jaxpr → Eqn
end

/-- The encoding of the distinguished variable `core.unitvar`. -/
def unitvar : Nat := 0

def Jaxpr.constvars : Jaxpr → List Nat
  | .mk cs _ _ _ => cs

def Jaxpr.invars : Jaxpr → List Nat
  | .mk _ is _ _ => is

def Jaxpr.outvars : Jaxpr → List Atom
  | .mk _ _ os _ => os

def Jaxpr.eqns : Jaxpr → List Eqn
  | .mk _ _ _ es => es

def Eqn.prim : Eqn → Prim
  | .mk p _ _ _ _ _ => p

def Eqn.invars : Eqn → List Atom
  | .mk _ is _ _ _ _ => is

def Eqn.outvars : Eqn → List Nat
  | .mk _ _ os _ _ _ => os

def Eqn.axisSize : Eqn → Option Nat
  | .mk _ _ _ a _ _ => a

def Eqn.callJaxpr : Eqn → Option Jaxpr
  | .mk _ _ _ _ c _ => c

def Eqn.paramJaxprs : Eqn → List Jaxpr
  | .mk _ _ _ _ _ ps => ps

/-! ### List helpers mirroring the Python idioms -/

/-- `isSubAt pat l`: `pat` is a prefix of `l`. -/
def isSubAt : List Char → List Char → Bool
  | [], _ => true
  | _ :: _, [] => false
  | a :: as, b :: bs => a == b && isSubAt as bs

/-- `containsSub pat l`: Python `pat in l` substring containment. -/
def containsSub (pat : List Char) : List Char → Bool
  | [] => isSubAt pat []
  | l@(_ :: rest) => isSubAt pat l || containsSub pat rest

/-- `", ".join`-style separator join. -/
def joinSep (sep : String) : List String → String
  | [] => ""
  | [s] => s
  | s :: rest => s ++ sep ++ joinSep sep rest

/-- Python `str` of an optional value (`str(None) = "None"`). -/
def optStr : Option Nat → String
  | none => "None"
  | some d => toString d

/-- `[x for i, x in enumerate(l) if p i x]`, with `i` starting at `n`. -/
def filterIdxFrom {α : Type} (p : Nat → α → Bool) : Nat → List α → List α
  | _, [] => []
  | n, x :: xs =>
    if p n x then x :: filterIdxFrom p (n + 1) xs else filterIdxFrom p (n + 1) xs

/-- `[x for i, x in enumerate(l) if i in kept]`. -/
def filterIdx {α : Type} (kept : List Nat) (l : List α) : List α :=
  filterIdxFrom (fun i _ => decide (i ∈ kept)) 0 l

/-- `[i for i, x in enumerate(l) if p x]`, with `i` starting at `n`. -/
def idxWhereFrom {α : Type} (p : α → Bool) : Nat → List α → List Nat
  | _, [] => []
  | n, x :: xs =>
    if p x then n :: idxWhereFrom p (n + 1) xs else idxWhereFrom p (n + 1) xs

/-- The indices of the elements of `l` satisfying `p`. -/
def idxWhere {α : Type} (p : α → Bool) (l : List α) : List Nat :=
  idxWhereFrom p 0 l

/-- Python `max(l, default=1)`. -/
def pyMaxD1 : List Nat → Nat
  | [] => 1
  | x :: xs => xs.foldl Nat.max x

/-! ### Replica counting (`jaxpr_replicas` / `eqn_replicas`) -/

mutual
/-- `jaxpr_replicas(jaxpr)`: the number of replicas needed for a jaxpr —
the maximum of `eqn_replicas` over the equations, defaulting to 1. -/
def jaxpr_replicas : Jaxpr → Nat
  | .mk _ _ _ eqns => pyMaxD1 (eqns_replicas eqns)

/-- `unsafe_map(eqn_replicas, jaxpr.eqns)`. -/
def eqns_replicas : List Eqn → List Nat
  | [] => []
  | e :: es => eqn_replicas e :: eqns_replicas es

/-- `eqn_replicas(eqn)`: `axis_size * jaxpr_replicas(call_jaxpr)` when the
equation carries a `call_jaxpr` param, the initial-style traversal when the
primitive is initial-style, and 1 otherwise. -/
def eqn_replicas : Eqn → Nat
  | .mk prim _ _ axisSize callJaxpr paramJaxprs =>
    match callJaxpr with
    | some cj => axisSize.getD 1 * jaxpr_replicas cj
    | none =>
      if prim.initialStyle then
        pyMaxD1 (jaxprs_replicas paramJaxprs)
      else
        1

/-- `initial_style_primitive_replicas`: max of `jaxpr_replicas` over the
jaxpr-valued params, defaulting to 1. -/
def jaxprs_replicas : List Jaxpr → List Nat
  | [] => []
  | j :: js => jaxpr_replicas j :: jaxprs_replicas js
end

/-! ### Pmap detection (`jaxpr_has_pmap`) -/

mutual
/-- `jaxpr_has_pmap(jaxpr)`: whether there is an `xla_pmap` primitive
anywhere inside a jaxpr, searching equation primitive names first and then
every nested sub-jaxpr. -/
def jaxpr_has_pmap : Jaxpr → Bool
  | .mk _ _ _ eqns => eqns_pmap_name eqns || eqns_pmap_sub eqns

/-- The first loop of `jaxpr_has_pmap`: `'xla_pmap' in eqn.primitive.name`. -/
def eqns_pmap_name : List Eqn → Bool
  | [] => false
  | .mk prim _ _ _ _ _ :: es =>
    containsSub "xla_pmap".toList prim.name.toList || eqns_pmap_name es

/-- The second loop of `jaxpr_has_pmap`: recurse into `core.subjaxprs`. -/
def eqns_pmap_sub : List Eqn → Bool
  | [] => false
  | .mk _ _ _ _ callJaxpr paramJaxprs :: es =>
    opt_jaxpr_pmap callJaxpr || jaxprs_pmap paramJaxprs || eqns_pmap_sub es

def opt_jaxpr_pmap : Option Jaxpr → Bool
  | none => false
  | some j => jaxpr_has_pmap j

def jaxprs_pmap : List Jaxpr → Bool
  | [] => false
  | j :: js => jaxpr_has_pmap j || jaxprs_pmap js
end

/-! ### Pruning (`_prune_unused_inputs`) -/

/-- The variable operands of an equation (`v for v in eqn.invars if Var`). -/
def eqnInvarVars (e : Eqn) : List Nat := e.invars.filterMap atomVar

/-- The `used` set of `_prune_unused_inputs`: output variables plus the
variable operands of every equation (regardless of whether that equation
itself is live). -/
def usedVars (j : Jaxpr) : List Nat :=
  j.outvars.filterMap atomVar ++ j.eqns.flatMap eqnInvarVars

/-- `_prune_unused_inputs(jaxpr) -> (new_jaxpr, kept_const_idx,
kept_var_idx)`: drop the constvars and invars not in the `used` set,
recording the kept original indices; outvars and equations are unchanged. -/
def prune_unused_inputs (j : Jaxpr) : Jaxpr × List Nat × List Nat :=
  let used := usedVars j
  let kept_const_idx := idxWhere (fun v => decide (v ∈ used)) j.constvars
  let new_constvars := j.constvars.filter (fun v => decide (v ∈ used))
  let kept_var_idx := idxWhere (fun v => decide (v ∈ used)) j.invars
  let new_invars := j.invars.filter (fun v => decide (v ∈ used))
  (.mk new_constvars new_invars j.outvars j.eqns, kept_const_idx, kept_var_idx)

/-- Modelled from the spec: the set of variables "transitively reachable
from the program's declared outputs" (§4.3, §8 pruning soundness) — a
backward liveness pass that, unlike the source's `used` set, only follows
equations whose own outputs are live. -/
def liveStep (e : Eqn) (live : List Nat) : List Nat :=
  if e.outvars.any (fun v => decide (v ∈ live)) then eqnInvarVars e ++ live else live

/-- Modelled from the spec: variables reachable from the jaxpr's outputs
through live equations (equations are in topological order, so one
backward pass suffices). -/
def liveVars (j : Jaxpr) : List Nat :=
  j.eqns.foldr liveStep (j.outvars.filterMap atomVar)

/-! ### Device resolution -/

/-- Errors raised by the dispatch layer, tagged by Python exception class
and carrying the message where a claim depends on it. -/
inductive DispatchError where
  | valueError : String → DispatchError
  | notImplementedError : String → DispatchError
  | typeError : String → DispatchError
  | floatingPointError : String → DispatchError
  | keyError : DispatchError
  | indexError : DispatchError
  | assertionError : DispatchError
deriving DecidableEq, Repr

/-- The colocation error message of `_device_from_arg_devices`
(`str` of every input device, `None` included, joined by commas). -/
def colocationMsg (devices : List (Option Device)) : String :=
  "primitive arguments must be colocated on the same device, got " ++
    joinSep ", " (devices.map optStr)

/-- `_device_from_arg_devices(devices)`: the unique non-`None` device of
the arguments, `None` when there is none, and a `ValueError` naming all
the argument devices when two or more distinct devices occur. -/
def device_from_arg_devices (devices : List (Option Device)) :
    Except DispatchError (Option Device) :=
  match (devices.filterMap id).dedup with
  | [] => .ok none
  | [d] => .ok (some d)
  | _ => .error (.valueError (colocationMsg devices))

/-- The backend-global environment the dispatch code consults:
`xb.process_count()`, `xb.device_count(backend)`,
`xb.get_device_backend(device)`, `xb.get_backend(name)`, and
`backend.get_default_device_assignment(1)[0]`.  Backends are opaque ids. -/
structure XlaEnv where
  processCount : Nat
  deviceCount : Nat → Nat
  backendOfDevice : Device → Nat
  getBackend : Option Nat → Nat
  defaultDeviceOf : Nat → Device

/-- `_xla_callable_device(nreps, backend, device, arg_devices)`. -/
def xla_callable_device (env : XlaEnv) (nreps : Nat) (backend : Option Nat)
    (device : Option Device) (arg_devices : List (Option Device)) :
    Except DispatchError (Option Device) :=
  if 1 < nreps then
    if device.isSome || backend.isSome then
      .error (.valueError ("cannot specify device or backend for jit-of-pmap, got device="
        ++ optStr device ++ " and backend=" ++ optStr backend))
    else
      .ok none
  else
    match device, backend with
    | none, none => device_from_arg_devices arg_devices
    | some d, none => .ok (some d)
    | none, some b => .ok (some (env.defaultDeviceOf (env.getBackend (some b))))
    | some _, some _ => .error .assertionError

/-! ### Lowering (`lower_xla_callable`) -/

/-- The inputs of `lower_xla_callable` after the external tracing step
(`pe.trace_to_jaxpr_final` is an external collaborator; it yields the
jaxpr, its constants and the output avals from `fun` and the argument
avals). -/
structure LowerInput where
  jaxpr : Jaxpr
  consts : List Value
  out_avals : List Aval
  arg_specs : List (Aval × Option Device)
  device : Option Device
  backend : Option Nat
  name : String
  donated_invars : List Bool

/-- The pruned jaxpr with the kept constant and input indices. -/
def prunedTriple (inp : LowerInput) : Jaxpr × List Nat × List Nat :=
  prune_unused_inputs inp.jaxpr

/-- `pruned_arg_specs = (a for i, a in enumerate(arg_specs) if i in kept_var_idx)`. -/
def kept_arg_specs (inp : LowerInput) : List (Aval × Option Device) :=
  filterIdx (prunedTriple inp).2.2 inp.arg_specs

/-- The `abstract_args` after pruning. -/
def kept_abstract_args (inp : LowerInput) : List Aval :=
  (kept_arg_specs inp).map (fun s => s.1)

/-- The `arg_devices` after pruning. -/
def kept_arg_devices (inp : LowerInput) : List (Option Device) :=
  (kept_arg_specs inp).map (fun s => s.2)

/-- `consts = [c for i, c in enumerate(consts) if i in kept_const_idx]`. -/
def kept_consts (inp : LowerInput) : List Value :=
  filterIdx (prunedTriple inp).2.1 inp.consts

/-- `nreps = jaxpr_replicas(jaxpr)` on the pruned jaxpr. -/
def nreps_of (inp : LowerInput) : Nat :=
  jaxpr_replicas (prunedTriple inp).1

/-- `device = _xla_callable_device(nreps, backend, device, arg_devices)`. -/
def resolved_device (env : XlaEnv) (inp : LowerInput) :
    Except DispatchError (Option Device) :=
  xla_callable_device env (nreps_of inp) inp.backend inp.device
    (kept_arg_devices inp)

/-- `backend = xb.get_device_backend(device) if device else xb.get_backend(backend)`. -/
def backend_of (env : XlaEnv) (inp : LowerInput) (dev : Option Device) : Nat :=
  match dev with
  | some d => env.backendOfDevice d
  | none => env.getBackend inp.backend

/-- The result of `lower_xla_callable`: the source's `XlaComputation`
carries either the trivial compile args `(jaxpr, consts, device,
abstract_args, out_avals, kept_var_idx)` or the compiled ones `(built,
nreps, device, backend, tuple_args, abstract_args, out_avals,
kept_var_idx)`; the built HLO itself is the opaque backend request. -/
inductive XlaComputation where
  | trivialComp (jaxpr : Jaxpr) (consts : List Value) (device : Option Device)
      (in_avals : List Aval) (out_avals : List Aval) (kept_var_idx : List Nat)
  | compiledComp (nreps : Nat) (backend : Nat) (tuple_args : Bool)
      (device : Option Device) (in_avals : List Aval) (out_avals : List Aval)
      (kept_var_idx : List Nat)

/-- `lower_xla_callable`, returning the computation (or the raised error)
paired with the number of backend-builder invocations (`XlaBuilder` plus
the emission of the program into it), which is 0 on every early return and
1 exactly when the non-trivial build is reached. -/
def lower_xla_callable (env : XlaEnv) (inp : LowerInput) :
    Except DispatchError XlaComputation × Nat :=
  if inp.device.isSome && inp.backend.isSome then
    (.error (.valueError ("cannot specify both a device and a backend for jit, got device="
      ++ optStr inp.device ++ " and backend=" ++ optStr inp.backend)), 0)
  else
    match resolved_device env inp with
    | .error e => (.error e, 0)
    | .ok dev =>
      let pj := (prunedTriple inp).1
      let bkd := backend_of env inp dev
      if pj.eqns.isEmpty then
        (.ok (.trivialComp pj (kept_consts inp) dev (kept_abstract_args inp)
          inp.out_avals (prunedTriple inp).2.2), 0)
      else if env.deviceCount bkd < nreps_of inp then
        (.error (.valueError ("compiling computation " ++ inp.name ++
          " that requires " ++ toString (nreps_of inp) ++ " replicas, but only " ++
          toString (env.deviceCount bkd) ++ " XLA devices are available.")), 0)
      else if 1 < env.processCount ∧ (1 < nreps_of inp ∨ jaxpr_has_pmap pj = true) then
        (.error (.notImplementedError ("jit of multi-host pmap not implemented (and jit-of-pmap can cause extra data movement anyway, so maybe you do not want it after all).")), 0)
      else
        (.ok (.compiledComp (nreps_of inp) bkd
          (decide (100 < (kept_abstract_args inp).length)) dev
          (kept_abstract_args inp) inp.out_avals (prunedTriple inp).2.2), 1)

/-! ### Numerical-health check (`check_special`) -/

/-- The configuration flags the execution paths read
(`config.jax_debug_nans` / `config.jax_debug_infs`). -/
structure JaxConfig where
  jax_debug_nans : Bool
  jax_debug_infs : Bool
deriving DecidableEq, Repr

/-- `needs_check_special()`. -/
def needs_check_special (cfg : JaxConfig) : Bool :=
  cfg.jax_debug_infs || cfg.jax_debug_nans

/-- `_check_special(name, xla_shape, buf)`: only inexact element types are
inspected; a NaN under `jax_debug_nans` or an Inf under `jax_debug_infs`
raises a `FloatingPointError` naming the computation. -/
def check_special_buf (cfg : JaxConfig) (name : String) (buf : Value) :
    Except DispatchError Unit :=
  if avalInexact buf.aval then
    if cfg.jax_debug_nans && buf.hasNan then
      .error (.floatingPointError ("invalid value (nan) encountered in " ++ name))
    else if cfg.jax_debug_infs && buf.hasInf then
      .error (.floatingPointError ("invalid value (inf) encountered in " ++ name))
    else
      .ok ()
  else
    .ok ()

/-- The loop of `check_special` over the output buffers. -/
def check_special_list (cfg : JaxConfig) (name : String) :
    List Value → Except DispatchError Unit
  | [] => .ok ()
  | b :: bs =>
    match check_special_buf cfg name b with
    | .error e => .error e
    | .ok _ => check_special_list cfg name bs

/-- `check_special(name, bufs)`: a no-op unless a debug flag is set. -/
def check_special (cfg : JaxConfig) (name : String) (bufs : List Value) :
    Except DispatchError Unit :=
  if needs_check_special cfg then check_special_list cfg name bufs else .ok ()

/-! ### Result handlers and buffer marshaling -/

/-- `xla.canonicalize_dtype`: external collaborator (dtype
canonicalization under the x64 flag); constants and literals reaching the
dispatch layer are already canonical, so it is modelled as the identity. -/
def canonicalize_dtype (v : Value) : Value := v

/-- `device_put(x, device)`: hand a value to the backend as a one-buffer
tuple; the buffer carries the same contents (the device placement of the
raw buffer is backend state that the dispatch layer never reads back). -/
def device_put (x : Value) (_device : Option Device) : List Value :=
  [canonicalize_dtype x]

/-- `_copy_device_array_to_device`: without a target the array is returned
untouched; with one, the same contents end up bound to the target device. -/
def copy_device_array_to_device (x : Value) (device : Option Device) : Value :=
  match device with
  | none => x
  | some d => { x with device := some d }

/-- `aval_to_result_handler(device, aval)`: `AbstractUnit` yields
`core.unit`, `AbstractToken` yields `core.token`, and a shaped array wraps
the single raw output buffer back into the runtime value (contents
preserved). -/
def aval_to_result_handler (_device : Option Device) (aval : Aval) :
    List Value → Value :=
  match aval with
  | .unit => fun _ => unitValue
  | .token => fun _ => tokenValue
  | .shaped _ _ => fun bufs => bufs.headD dummyValue

/-- `xla._partition_outputs(counts, bufs)`: split the flat buffer list into
groups of the declared per-output buffer counts. -/
def partition_outputs : List Nat → List Value → List (List Value)
  | [], _ => []
  | c :: cs, bufs => bufs.take c :: partition_outputs cs (bufs.drop c)

/-! ### Execution strategies -/

/-- The opaque compiled backend executable: its local devices and its
`execute` / `execute_sharded_on_local_devices` entry points. -/
structure XlaExecutableModel where
  local_devices : List Device
  execute : List Value → List Value
  execute_sharded : List (List Value) → List (List Value)

/-- The input-buffer gathering shared by the compiled strategies:
`device_put(x, device) for i, x in enumerate(args) if x is not core.token
and i in kept_var_idx`, flattened. -/
def input_bufs (kept_var_idx : List Nat) (device : Option Device)
    (args : List Value) : List Value :=
  (filterIdxFrom
      (fun i x => !(decide (x.aval = .token)) && decide (i ∈ kept_var_idx)) 0 args
    ).flatMap (fun x => device_put x device)

/-- The result-handler dispatch shared by the compiled strategies: a single
output is handed entire to the only handler, several outputs are
partitioned by buffer count (`unsafe_zip` truncates like Python `zip`). -/
def dispatch_handlers (output_buffer_counts : Option (List Nat))
    (handlers : List (List Value → Value)) (out_bufs : List Value) :
    Except DispatchError (List Value) :=
  match output_buffer_counts with
  | none =>
    match handlers with
    | h :: _ => .ok [h out_bufs]
    | [] => .error .indexError
  | some counts =>
    .ok (List.zipWith (fun h bs => h bs) handlers (partition_outputs counts out_bufs))

/-- `_execute_compiled`: single-device execution — unpack the unique local
device, gather kept non-token inputs, run, `check_special`, then dispatch
the result handlers. -/
def execute_compiled (cfg : JaxConfig) (name : String)
    (compiled : XlaExecutableModel) (output_buffer_counts : Option (List Nat))
    (handlers : List (List Value → Value)) (kept_var_idx : List Nat)
    (args : List Value) : Except DispatchError (List Value) :=
  match compiled.local_devices with
  | [device] =>
    let out_bufs := compiled.execute (input_bufs kept_var_idx (some device) args)
    match check_special cfg name out_bufs with
    | .error e => .error e
    | .ok _ => dispatch_handlers output_buffer_counts handlers out_bufs
  | _ => .error (.valueError "too many values to unpack")

/-- The first replica's buffer of every output group (`buf[0]`). -/
def replicated_out_bufs (compiled : XlaExecutableModel)
    (kept_var_idx : List Nat) (args : List Value) : Option (List Value) :=
  (compiled.execute_sharded
      (List.transpose (compiled.local_devices.map
        (fun d => input_bufs kept_var_idx (some d) args)))
    ).mapM List.head?

/-- `_execute_replicated`: per-replica transfer, sharded execution, first
replica's result per output, `check_special`, then handler dispatch. -/
def execute_replicated (cfg : JaxConfig) (name : String)
    (compiled : XlaExecutableModel) (output_buffer_counts : Option (List Nat))
    (handlers : List (List Value → Value)) (kept_var_idx : List Nat)
    (args : List Value) : Except DispatchError (List Value) :=
  match replicated_out_bufs compiled kept_var_idx args with
  | none => .error .indexError
  | some out_bufs =>
    match check_special cfg name out_bufs with
    | .error e => .error e
    | .ok _ => dispatch_handlers output_buffer_counts handlers out_bufs

/-- Environment lookup of `_execute_trivial` (dict with
first-insertion-wins `setdefault`). -/
def lookupAssocV : List (Nat × Value) → Nat → Option Value
  | [], _ => none
  | (k, v) :: rest, x => if k = x then some v else lookupAssocV rest x

/-- The output materialization loop of `_execute_trivial`: a literal output
is canonicalized directly, a variable output is looked up in the
environment (a missing variable is the Python `KeyError`). -/
def trivial_outs (env : List (Nat × Value)) :
    List Atom → Option (List Value)
  | [] => some []
  | .lit v :: rest => (trivial_outs env rest).map (fun os => canonicalize_dtype v :: os)
  | .var v :: rest =>
    match lookupAssocV env v with
    | none => none
    | some x => (trivial_outs env rest).map (fun os => x :: os)

/-- `_execute_trivial(jaxpr, device, consts, avals, handlers,
kept_var_idx, *args)`: build the environment from the kept arguments and
the constants (positionally, under `core.unitvar ↦ core.unit`), substitute
the outputs, and marshal each through its result handler (device arrays
are moved instead).  `safe_map`/`safe_zip` length assertions are modelled
as `AssertionError`s.  Note: no `check_special` pass occurs on this path. -/
def execute_trivial (jaxpr : Jaxpr) (device : Option Device)
    (consts : List Value) (_avals : List Aval)
    (handlers : List (List Value → Value)) (kept_var_idx : List Nat)
    (args : List Value) : Except DispatchError (List Value) :=
  let pruned_args := filterIdx kept_var_idx args
  if jaxpr.invars.length ≠ pruned_args.length then .error .assertionError
  else if jaxpr.constvars.length ≠ consts.length then .error .assertionError
  else
    let env := (unitvar, unitValue) ::
      (jaxpr.invars.zip pruned_args ++ jaxpr.constvars.zip consts)
    match trivial_outs env jaxpr.outvars with
    | none => .error .keyError
    | some outs =>
      if handlers.length ≠ outs.length then .error .assertionError
      else
        .ok (List.zipWith
          (fun h x =>
            if x.isDeviceArray then copy_device_array_to_device x device
            else h (device_put x device))
          handlers outs)

/-! ### The compiled-computation wrapper and its call-time check -/

/-- Formatting of an aval in the type-mismatch message. -/
def aval_str : Aval → String
  | .shaped d sh => d ++ "[" ++ joinSep "," (sh.map toString) ++ "]"
  | .unit => "Unit"
  | .token => "Token"

/-- `", ".join(str(a) for a in avals)`. -/
def fmt_avals (l : List Aval) : String := joinSep ", " (l.map aval_str)

/-- `core.typematch`: external to `src/`; per spec §4.6 the call-time check
is an "exact count and structural type match", modelled as structural aval
equality. -/
def typematch (a b : Aval) : Bool := decide (a = b)

/-- The count-mismatch message of `check_arg_avals_for_call`. -/
def countMismatchMsg (nref narg : Nat) : String :=
  "Computation compiled for " ++ toString nref ++ " inputs but called with "
    ++ toString narg

/-- The type-mismatch message of `check_arg_avals_for_call` (both full
aval lists are formatted into it). -/
def typeMismatchMsg (refAvals argAvals : List Aval) : String :=
  "Computation compiled for input types:\n  " ++ fmt_avals refAvals ++
    "\ncalled with:\n  " ++ fmt_avals argAvals

/-- `check_arg_avals_for_call(ref_avals, arg_avals)`: a `TypeError` on a
count mismatch, then a `TypeError` naming both full aval lists if any pair
fails `typematch`. -/
def check_arg_avals_for_call (refAvals argAvals : List Aval) :
    Except DispatchError Unit :=
  if refAvals.length ≠ argAvals.length then
    .error (.typeError (countMismatchMsg refAvals.length argAvals.length))
  else if (refAvals.zip argAvals).all (fun p => typematch p.1 p.2) then
    .ok ()
  else
    .error (.typeError (typeMismatchMsg refAvals argAvals))

/-- `XlaCompiledComputation`: the long-lived artifact — recorded input
avals, kept input indices, and the bound execution strategy. -/
structure XlaCompiledComputation where
  in_avals : List Aval
  kept_var_idx : List Nat
  unsafe_call : List Value → Except DispatchError (List Value)

/-- The argument avals a call re-fingerprints: `arg_spec` of every
argument, restricted to the kept indices, aval component only. -/
def kept_arg_avals (c : XlaCompiledComputation) (args : List Value) : List Aval :=
  (filterIdx c.kept_var_idx (args.map arg_spec)).map (fun s => s.1)

/-- The check performed by `XlaCompiledComputation.call` before invoking
the execution strategy. -/
def call_check (c : XlaCompiledComputation) (args : List Value) :
    Except DispatchError Unit :=
  check_arg_avals_for_call c.in_avals (kept_arg_avals c args)

/-- `XlaCompiledComputation.call(*args)`: re-fingerprint, check, then run
the strategy. -/
def XlaCompiledComputation.call (c : XlaCompiledComputation)
    (args : List Value) : Except DispatchError (List Value) :=
  match call_check c args with
  | .error e => .error e
  | .ok _ => c.unsafe_call args

/-- `XlaCompiledComputation.from_trivial_jaxpr`: bind `_execute_trivial`
over the trivial compile args, with one result handler per output aval. -/
def from_trivial_jaxpr (jaxpr : Jaxpr) (consts : List Value)
    (device : Option Device) (in_avals out_avals : List Aval)
    (kept_var_idx : List Nat) : XlaCompiledComputation :=
  { in_avals := in_avals
    kept_var_idx := kept_var_idx
    unsafe_call := execute_trivial jaxpr device consts out_avals
      (out_avals.map (aval_to_result_handler device)) kept_var_idx }

/-! ### The jit dispatch cache

Modelled from the spec: `_xla_callable = lu.cache(_xla_callable_uncached)`
— `lu.cache` lives in `jax/linear_util.py`, which is not under `src/`.
Spec §4.4: "for a given cache instance, repeated calls with an equal key
return the same CompiledArtifact instance without invoking `build_fn`
again (memoization), as long as no eviction has occurred", keyed by
function identity, retained-argument specs, device, backend, name and
donation flags. -/

/-- Modelled from the spec: the composite cache key (§3 CacheKey). -/
structure CacheKey where
  funId : Nat
  device : Option Device
  backend : Option Nat
  name : String
  donated_invars : List Bool
  arg_specs : List (Aval × Option Device)
deriving DecidableEq, Repr

/-- Modelled from the spec: the key the dispatch entry point computes for
a call — the per-argument fingerprints plus the static parameters. -/
def call_cache_key (funId : Nat) (device : Option Device)
    (backend : Option Nat) (name : String) (donated_invars : List Bool)
    (args : List Value) : CacheKey :=
  { funId := funId, device := device, backend := backend, name := name,
    donated_invars := donated_invars, arg_specs := args.map arg_spec }

/-- Modelled from the spec: the cache store — an association of keys to
built artifacts (artifacts are identified by the id the builder stamped on
them) plus the number of builder invocations so far, which doubles as the
next fresh artifact id. -/
structure CacheState where
  entries : List (CacheKey × Nat)
  builds : Nat
deriving DecidableEq, Repr

/-- The empty cache (also the state after an explicit cache clear). -/
def emptyCache : CacheState := { entries := [], builds := 0 }

/-- First-match association lookup. -/
def assocFind : List (CacheKey × Nat) → CacheKey → Option Nat
  | [], _ => none
  | (k, a) :: rest, key => if k = key then some a else assocFind rest key

/-- Modelled from the spec: `get_or_build(key, build_fn)` — return the
cached artifact on a hit; on a miss invoke the builder once, obtaining a
fresh artifact, and populate the entry. -/
def xla_callable_cached (s : CacheState) (k : CacheKey) : Nat × CacheState :=
  match assocFind s.entries k with
  | some a => (a, s)
  | none => (s.builds, { entries := (k, s.builds) :: s.entries, builds := s.builds + 1 })

/-! ### Concrete fixtures used by witnesses and counterexamples -/

/-- A single-process, single-device environment. -/
def fxEnv : XlaEnv :=
  { processCount := 1, deviceCount := fun _ => 1, backendOfDevice := fun _ => 0,
    getBackend := fun _ => 0, defaultDeviceOf := fun _ => 7 }

/-- A two-process, four-device environment. -/
def fxEnvMulti : XlaEnv :=
  { processCount := 2, deviceCount := fun _ => 4, backendOfDevice := fun _ => 0,
    getBackend := fun _ => 0, defaultDeviceOf := fun _ => 7 }

def fxF32 : Aval := .shaped "float32" []

def fxI32 : Aval := .shaped "int32" []

def fxVF32 : Value := { aval := fxF32, payload := 1 }

def fxVF32b : Value := { aval := fxF32, payload := 2 }

def fxVI32 : Value := { aval := fxI32, payload := 3 }

def fxVBool : Value := { aval := .shaped "bool" [], payload := 4 }

/-- A float32 scalar buffer containing a NaN. -/
def fxNan : Value := { aval := fxF32, payload := 0, hasNan := true }

def fxConst : Value := { aval := fxF32, payload := 9 }

def fxEmptyJ : Jaxpr := .mk [] [] [] []

/-- A program whose only equation is a pmap of an empty sub-program with
`axis_size = 4`. -/
def fxPmapJ : Jaxpr :=
  .mk [] [] [] [.mk ⟨"xla_pmap", false⟩ [] [] (some 4) (some fxEmptyJ) []]

/-- A program with one equation carrying `axis_size = 4` but no
`call_jaxpr` param. -/
def fxAxisNoSubJ : Jaxpr :=
  .mk [] [] [] [.mk ⟨"foo", false⟩ [] [] (some 4) none []]

/-- Two inputs; input 1 (index 0) feeds only a dead `sin` equation whose
result (var 3) is never output; the sole output is input 2 (index 1). -/
def fxDeadIn : Jaxpr :=
  .mk [] [1, 2] [.var 2] [.mk ⟨"sin", false⟩ [.var 1] [3] none none []]

/-- `out = add(in0, in1)`. -/
def fxAddJ : Jaxpr :=
  .mk [] [1, 2] [.var 3] [.mk ⟨"add", false⟩ [.var 1, .var 2] [3] none none []]

/-- A zero-equation program whose single output is its constant (var 5). -/
def fxTrivJ : Jaxpr := .mk [5] [] [.var 5] []

def fxTrivInp : LowerInput :=
  { jaxpr := fxTrivJ, consts := [fxConst], out_avals := [fxF32],
    arg_specs := [], device := none, backend := none, name := "triv",
    donated_invars := [] }

def fxAddInp : LowerInput :=
  { jaxpr := fxAddJ, consts := [], out_avals := [fxF32],
    arg_specs := [(fxF32, none), (fxF32, none)], device := none,
    backend := none, name := "add", donated_invars := [false, false] }

def fxPmapInp : LowerInput :=
  { jaxpr := fxPmapJ, consts := [], out_avals := [], arg_specs := [],
    device := none, backend := none, name := "pm", donated_invars := [] }

/-- A backend executable on device 0 that produces a NaN output buffer. -/
def fxExec : XlaExecutableModel :=
  { local_devices := [0], execute := fun _ => [fxNan],
    execute_sharded := fun _ => [[fxNan]] }

/-- Debug-NaN mode on. -/
def fxCfgNan : JaxConfig := { jax_debug_nans := true, jax_debug_infs := false }

/-- A compiled artifact: one kept float32 input (index 0), index 1 pruned. -/
def fxCallComp : XlaCompiledComputation :=
  { in_avals := [fxF32], kept_var_idx := [0], unsafe_call := fun _ => .ok [] }

/-- A compiled artifact recording two kept int32 inputs. -/
def fxCountComp : XlaCompiledComputation :=
  { in_avals := [fxI32, fxI32], kept_var_idx := [0, 1],
    unsafe_call := fun _ => .ok [] }

/-! ### Helper lemmas -/

theorem eqns_replicas_eq_map (es : List Eqn) :
    eqns_replicas es = es.map eqn_replicas := by
  induction es with
  | nil => rfl
  | cons e es ih => simp [eqns_replicas, ih]

theorem jaxpr_replicas_def (j : Jaxpr) :
    jaxpr_replicas j = pyMaxD1 (j.eqns.map eqn_replicas) := by
  cases j with
  | mk cs is os es => simp [jaxpr_replicas, Jaxpr.eqns, eqns_replicas_eq_map]

theorem mem_idxWhereFrom {α : Type} (p : α → Bool) (l : List α) (n i : Nat) :
    i ∈ idxWhereFrom p n l ↔
      ∃ j x, i = n + j ∧ l.get? j = some x ∧ p x = true := by
  induction l generalizing n with
  | nil => simp [idxWhereFrom]
  | cons a t ih =>
    by_cases hp : p a
    · simp only [idxWhereFrom, hp, if_pos, List.mem_cons]
      constructor
      · rintro (h | h)
        · exact ⟨0, a, by omega, rfl, hp⟩
        · obtain ⟨j, x, hij, hget, hpx⟩ := (ih (n + 1)).mp h
          exact ⟨j + 1, x, by omega, hget, hpx⟩
      · rintro ⟨j, x, hij, hget, hpx⟩
        cases j with
        | zero => left; omega
        | succ j =>
          right
          exact (ih (n + 1)).mpr ⟨j, x, by omega, hget, hpx⟩
    · simp only [idxWhereFrom, hp, if_neg, Bool.false_eq_true, not_false_iff]
      rw [ih (n + 1)]
      constructor
      · rintro ⟨j, x, hij, hget, hpx⟩
        exact ⟨j + 1, x, by omega, hget, hpx⟩
      · rintro ⟨j, x, hij, hget, hpx⟩
        cases j with
        | zero =>
          simp only [List.get?] at hget
          cases hget
          simp [hpx] at hp
        | succ j => exact ⟨j, x, by omega, hget, hpx⟩

theorem mem_idxWhere {α : Type} (p : α → Bool) (l : List α) (i : Nat) :
    i ∈ idxWhere p l ↔ ∃ x, l.get? i = some x ∧ p x = true := by
  rw [idxWhere, mem_idxWhereFrom]
  constructor
  · rintro ⟨j, x, hij, hget, hpx⟩
    have hj : i = j := by omega
    subst hj
    exact ⟨x, hget, hpx⟩
  · rintro ⟨x, hget, hpx⟩
    exact ⟨i, x, by omega, hget, hpx⟩

theorem foldr_liveStep_subset (eqns : List Eqn) (seed : List Nat) (x : Nat)
    (h : x ∈ List.foldr liveStep seed eqns) :
    x ∈ seed ∨ ∃ e, e ∈ eqns ∧ x ∈ eqnInvarVars e := by
  induction eqns with
  | nil => exact Or.inl h
  | cons e es ih =>
    rw [List.foldr_cons] at h
    unfold liveStep at h
    split at h
    · rcases List.mem_append.mp h with h' | h'
      · exact Or.inr ⟨e, List.mem_cons_self e es, h'⟩
      · rcases ih h' with h'' | ⟨e', he', hx⟩
        · exact Or.inl h''
        · exact Or.inr ⟨e', List.mem_cons_of_mem e he', hx⟩
    · rcases ih h with h'' | ⟨e', he', hx⟩
      · exact Or.inl h''
      · exact Or.inr ⟨e', List.mem_cons_of_mem e he', hx⟩

/-- Every variable reachable from the outputs (spec-side liveness) is in
the source's syntactic `used` set. -/
theorem liveVars_subset_usedVars (j : Jaxpr) (x : Nat)
    (h : x ∈ liveVars j) : x ∈ usedVars j := by
  unfold liveVars at h
  rcases foldr_liveStep_subset j.eqns _ x h with h' | ⟨e, he, hx⟩
  · exact List.mem_append.mpr (Or.inl h')
  · exact List.mem_append.mpr (Or.inr (List.mem_flatMap.mpr ⟨e, he, hx⟩))

theorem filterIdxFrom_map {α β : Type} (p : Nat → Bool) (f : α → β)
    (l : List α) (n : Nat) :
    filterIdxFrom (fun i _ => p i) n (l.map f) =
      (filterIdxFrom (fun i _ => p i) n l).map f := by
  induction l generalizing n with
  | nil => rfl
  | cons a t ih =>
    by_cases hp : p n
    · simp [filterIdxFrom, hp, ih]
    · simp [filterIdxFrom, hp, ih]

theorem filterIdxFrom_set {α : Type} (p : Nat → Bool) (l : List α) (x : α)
    (n i : Nat) (h : p (n + i) = false) :
    filterIdxFrom (fun j _ => p j) n (l.set i x) =
      filterIdxFrom (fun j _ => p j) n l := by
  induction l generalizing n i with
  | nil => rfl
  | cons a t ih =>
    cases i with
    | zero =>
      simp only [List.set]
      simp only [Nat.add_zero] at h
      simp [filterIdxFrom, h]
    | succ i =>
      simp only [List.set]
      have h' : p (n + 1 + i) = false := by
        have : n + 1 + i = n + (i + 1) := by omega
        rw [this]; exact h
      by_cases hp : p n
      · simp [filterIdxFrom, hp, ih _ _ h']
      · simp [filterIdxFrom, hp, ih _ _ h']

theorem zip_all_typematch (a b : List Aval) (hlen : a.length = b.length) :
    ((a.zip b).all (fun p => typematch p.1 p.2) = true) ↔ a = b := by
  induction a generalizing b with
  | nil =>
    cases b with
    | nil => simp
    | cons y ys => simp at hlen
  | cons x xs ih =>
    cases b with
    | nil => simp at hlen
    | cons y ys =>
      have ih' := ih ys (by simpa using hlen)
      simp only [List.zip_cons_cons, List.all_cons, Bool.and_eq_true, typematch,
        decide_eq_true_eq, List.cons.injEq] at ih' ⊢
      rw [ih']

theorem check_special_list_error_fp (cfg : JaxConfig) (name : String)
    (bufs : List Value) (e : DispatchError)
    (h : check_special_list cfg name bufs = .error e) :
    ∃ msg, e = .floatingPointError msg := by
  induction bufs with
  | nil => simp [check_special_list] at h
  | cons b bs ih =>
    unfold check_special_list at h
    cases hb : check_special_buf cfg name b with
    | error e' =>
      rw [hb] at h
      cases h
      unfold check_special_buf at hb
      by_cases h1 : avalInexact b.aval
      · rw [if_pos h1] at hb
        by_cases h2 : (cfg.jax_debug_nans && b.hasNan) = true
        · rw [if_pos h2] at hb
          cases hb
          exact ⟨_, rfl⟩
        · rw [if_neg h2] at hb
          by_cases h3 : (cfg.jax_debug_infs && b.hasInf) = true
          · rw [if_pos h3] at hb
            cases hb
            exact ⟨_, rfl⟩
          · rw [if_neg h3] at hb
            cases hb
      · rw [if_neg h1] at hb
        cases hb
    | ok _ =>
      rw [hb] at h
      exact ih h

theorem kept_arg_avals_eq (c : XlaCompiledComputation) (args : List Value) :
    kept_arg_avals c args =
      filterIdx c.kept_var_idx (args.map (fun v => v.aval)) := by
  unfold kept_arg_avals filterIdx
  rw [filterIdxFrom_map (fun i => decide (i ∈ c.kept_var_idx)) arg_spec args 0]
  rw [filterIdxFrom_map (fun i => decide (i ∈ c.kept_var_idx))
    (fun v => v.aval) args 0]
  simp [List.map_map, arg_spec]

/-! ### C2 — pruning -/

/-- C2 counterexample: in `fxDeadIn`, input index 0 feeds only a dead
equation, so it is not transitively reachable from the outputs (the
reachable input indices are exactly `[1]`), yet `_prune_unused_inputs`
keeps both indices — the kept set is not the reachable set. -/
theorem c2_prune_counterexample :
    (prune_unused_inputs fxDeadIn).2.2 = [0, 1]
    ∧ idxWhere (fun v => decide (v ∈ liveVars fxDeadIn)) fxDeadIn.invars = [1]
    ∧ ([0, 1] : List Nat) ≠ [1] :=
  ⟨rfl, rfl, by decide⟩

/-- C2 (amended): pruning keeps outvars and equations unchanged, and keeps
exactly the input/constant indices whose variable occurs in the declared
outputs or in the inputs of any equation (the syntactic `used` set);
this retained set contains every input transitively reachable from the
outputs, but inputs consumed only by dead equations are also retained. -/
theorem c2_prune_characterization :
    (∀ j : Jaxpr, (prune_unused_inputs j).1.outvars = j.outvars
      ∧ (prune_unused_inputs j).1.eqns = j.eqns)
    ∧ (∀ (j : Jaxpr) (i : Nat), i ∈ (prune_unused_inputs j).2.2 ↔
        ∃ x, j.invars.get? i = some x ∧ x ∈ usedVars j)
    ∧ (∀ (j : Jaxpr) (i : Nat), i ∈ (prune_unused_inputs j).2.1 ↔
        ∃ x, j.constvars.get? i = some x ∧ x ∈ usedVars j)
    ∧ (∀ (j : Jaxpr) (i x : Nat), j.invars.get? i = some x →
        x ∈ liveVars j → i ∈ (prune_unused_inputs j).2.2) := by
  refine ⟨?_, ?_, ?_, ?_⟩
  · intro j
    cases j with
    | mk cs is os es => exact ⟨rfl, rfl⟩
  · intro j i
    show i ∈ idxWhere (fun v => decide (v ∈ usedVars j)) j.invars ↔ _
    rw [mem_idxWhere]
    simp only [decide_eq_true_eq]
  · intro j i
    show i ∈ idxWhere (fun v => decide (v ∈ usedVars j)) j.constvars ↔ _
    rw [mem_idxWhere]
    simp only [decide_eq_true_eq]
  · intro j i x hget hlive
    show i ∈ idxWhere (fun v => decide (v ∈ usedVars j)) j.invars
    rw [mem_idxWhere]
    exact ⟨x, hget, by simpa using liveVars_subset_usedVars j x hlive⟩

/-- C2 witness: in `fxDeadIn`, input index 1 (variable 2) is reachable
from the outputs and is indeed kept. -/
theorem c2_prune_witness :
    fxDeadIn.invars.get? 1 = some 2 ∧ 2 ∈ liveVars fxDeadIn
    ∧ 1 ∈ (prune_unused_inputs fxDeadIn).2.2 :=
  ⟨rfl, by decide,
    c2_prune_characterization.2.2.2 fxDeadIn 1 2 rfl (by decide)⟩

/-! ### C3 — replica counting -/

/-- C3 counterexample: an equation declaring `axis_size = 4` but carrying
no nested sub-program yields replica count 1, not 4 — `axis_size` is read
only together with a `call_jaxpr` param. -/
theorem c3_replicas_counterexample :
    jaxpr_replicas fxAxisNoSubJ = 1 ∧ (1 : Nat) ≠ 4 :=
  ⟨rfl, by decide⟩

/-- C3 (amended): an empty equation list yields replica count 1; one
equation declaring `axis_size = 4` over a nested sub-program with no
equations yields 4; in general the replica count is the maximum over
sibling equations (default 1) of each equation's contribution, which for a
`call_jaxpr` equation is its axis size (default 1) times the sub-program's
replica count, and is 1 for a plain equation with no nested sub-program
regardless of any `axis_size` parameter. -/
theorem c3_replicas_amended :
    (∀ (cs is : List Nat) (os : List Atom),
      jaxpr_replicas (.mk cs is os []) = 1)
    ∧ (∀ (cs is : List Nat) (os : List Atom) (prim : Prim)
        (einv : List Atom) (eout : List Nat) (cj : Jaxpr), cj.eqns = [] →
        jaxpr_replicas (.mk cs is os [.mk prim einv eout (some 4) (some cj) []]) = 4)
    ∧ (∀ j : Jaxpr, jaxpr_replicas j = pyMaxD1 (j.eqns.map eqn_replicas))
    ∧ (∀ (e : Eqn) (cj : Jaxpr), e.callJaxpr = some cj →
        eqn_replicas e = e.axisSize.getD 1 * jaxpr_replicas cj)
    ∧ (∀ (prim : Prim) (einv : List Atom) (eout : List Nat) (ax : Option Nat),
        eqn_replicas (.mk prim einv eout ax none []) = 1) := by
  refine ⟨?_, ?_, ?_, ?_, ?_⟩
  · intro cs is os
    rfl
  · intro cs is os prim einv eout cj h
    cases cj with
    | mk a b c es =>
      simp only [Jaxpr.eqns] at h
      subst h
      simp [jaxpr_replicas, eqns_replicas, eqn_replicas, pyMaxD1, Option.getD]
  · exact jaxpr_replicas_def
  · intro e cj h
    cases e with
    | mk prim einv eout ax c ps =>
      simp only [Eqn.callJaxpr] at h
      subst h
      simp [eqn_replicas, Eqn.axisSize]
  · intro prim einv eout ax
    cases hp : prim.initialStyle <;> simp [eqn_replicas, hp, jaxprs_replicas, pyMaxD1]

/-- C3 witness: the pmap-of-empty-sub-program fixture has replica count 4,
and the empty program has replica count 1. -/
theorem c3_replicas_witness :
    fxEmptyJ.eqns = [] ∧ jaxpr_replicas fxPmapJ = 4
    ∧ jaxpr_replicas fxEmptyJ = 1 :=
  ⟨rfl,
    c3_replicas_amended.2.1 [] [] [] ⟨"xla_pmap", false⟩ [] [] fxEmptyJ rfl,
    c3_replicas_amended.1 [] [] []⟩

/-! ### C4 — device resolution -/

/-- C4: device resolution order — both explicit device and backend is an
immediate error; with replica count greater than 1 any explicit device or
backend is an error and otherwise the result is unassigned; with neither
given the device is inferred from the per-argument devices (at most one
distinct non-null device, `{A, A, None}` resolving to `A`, two distinct
devices failing with a colocation error naming the devices, zero non-null
devices yielding unassigned); an explicit device is used directly; an
explicit backend resolves to its default device assignment at index 0. -/
theorem c4_device_resolution (env : XlaEnv) (A B : Device) (hAB : A ≠ B)
    (argDevs : List (Option Device)) (d : Device) (b : Nat) (nreps : Nat) :
    (∀ inp : LowerInput, inp.device.isSome = true → inp.backend.isSome = true →
      lower_xla_callable env inp =
        (.error (.valueError ("cannot specify both a device and a backend for jit, got device="
          ++ optStr inp.device ++ " and backend=" ++ optStr inp.backend)), 0))
    ∧ (1 < nreps → ∀ (dev : Option Device) (bk : Option Nat),
        (dev.isSome || bk.isSome) = true →
        ∃ msg, xla_callable_device env nreps bk dev argDevs =
          .error (.valueError msg))
    ∧ (1 < nreps →
        xla_callable_device env nreps none none argDevs = .ok none)
    ∧ (¬ 1 < nreps →
        xla_callable_device env nreps none none argDevs =
          device_from_arg_devices argDevs)
    ∧ (device_from_arg_devices [some A, some A, none] = .ok (some A))
    ∧ (device_from_arg_devices [some A, some B] =
        .error (.valueError (colocationMsg [some A, some B])))
    ∧ (argDevs.filterMap id = [] →
        device_from_arg_devices argDevs = .ok none)
    ∧ (∀ (devs : List (Option Device)) (x y : Device) (rest : List Device),
        (devs.filterMap id).dedup = x :: y :: rest →
        device_from_arg_devices devs = .error (.valueError (colocationMsg devs)))
    ∧ (¬ 1 < nreps →
        xla_callable_device env nreps none (some d) argDevs = .ok (some d))
    ∧ (¬ 1 < nreps →
        xla_callable_device env nreps (some b) none argDevs =
          .ok (some (env.defaultDeviceOf (env.getBackend (some b))))) := by
  refine ⟨?_, ?_, ?_, ?_, ?_, ?_, ?_, ?_, ?_, ?_⟩
  · intro inp h1 h2
    unfold lower_xla_callable
    simp [h1, h2]
  · intro hn dev bk hsome
    refine ⟨"cannot specify device or backend for jit-of-pmap, got device="
      ++ optStr dev ++ " and backend=" ++ optStr bk, ?_⟩
    unfold xla_callable_device
    rw [if_pos hn, if_pos hsome]
  · intro hn
    unfold xla_callable_device
    rw [if_pos hn]
    simp
  · intro hn
    unfold xla_callable_device
    rw [if_neg hn]
  · unfold device_from_arg_devices
    have h : (([some A, some A, none] : List (Option Device)).filterMap id).dedup
        = [A] := by
      simp [List.filterMap, List.dedup_cons_of_mem]
    rw [h]
  · unfold device_from_arg_devices
    have h : (([some A, some B] : List (Option Device)).filterMap id).dedup
        = [A, B] := by
      simp [List.filterMap, List.dedup_cons_of_not_mem, hAB]
    rw [h]
  · intro h
    unfold device_from_arg_devices
    rw [h]
    rfl
  · intro devs x y rest h
    unfold device_from_arg_devices
    rw [h]
  · intro hn
    unfold xla_callable_device
    rw [if_neg hn]
  · intro hn
    unfold xla_callable_device
    rw [if_neg hn]

/-- C4 witness: concrete resolutions in the single-device environment with
devices 0 and 1, including that the colocation message names both. -/
theorem c4_device_resolution_witness :
    device_from_arg_devices [some 0, some 0, none] = .ok (some 0)
    ∧ device_from_arg_devices [some 0, some 1] =
        .error (.valueError (colocationMsg [some 0, some 1]))
    ∧ colocationMsg [some 0, some 1] =
        "primitive arguments must be colocated on the same device, got 0, 1"
    ∧ containsSub "0".toList (colocationMsg [some 0, some 1]).toList = true
    ∧ containsSub "1".toList (colocationMsg [some 0, some 1]).toList = true
    ∧ xla_callable_device fxEnv 1 none (some 3) [] = .ok (some 3)
    ∧ xla_callable_device fxEnv 1 (some 0) none [] = .ok (some 7)
    ∧ xla_callable_device fxEnv 4 none none [some 2] = .ok none :=
  ⟨(c4_device_resolution fxEnv 0 1 (by decide) [] 3 0 1).2.2.2.2.1,
    (c4_device_resolution fxEnv 0 1 (by decide) [] 3 0 1).2.2.2.2.2.1,
    by decide,
    by decide,
    by decide,
    (c4_device_resolution fxEnv 0 1 (by decide) [] 3 0 1).2.2.2.2.2.2.2.2.1
      (by decide),
    (c4_device_resolution fxEnv 0 1 (by decide) [] 3 0 1).2.2.2.2.2.2.2.2.2
      (by decide),
    (c4_device_resolution fxEnv 0 1 (by decide) [some 2] 3 0 4).2.2.1
      (by decide)⟩

/-! ### C5 — trivial short-circuit -/

/-- C5: when the pruned program has zero equations, lowering returns a
trivial artifact with zero builder invocations (the computation builder is
never reached), and the trivial execution path evaluates outputs by direct
substitution: a zero-equation program whose single output is its constant
returns that constant's value unchanged, and a literal output is
materialized directly. -/
theorem c5_trivial_shortcircuit (env : XlaEnv) (inp : LowerInput)
    (dev : Option Device)
    (h0 : (inp.device.isSome && inp.backend.isSome) = false)
    (h1 : resolved_device env inp = .ok dev)
    (h2 : (prunedTriple inp).1.eqns.isEmpty = true) :
    lower_xla_callable env inp =
      (.ok (.trivialComp (prunedTriple inp).1 (kept_consts inp) dev
        (kept_abstract_args inp) inp.out_avals (prunedTriple inp).2.2), 0)
    ∧ (∀ (v : Value) (c : Nat) (dt : String) (sh : List Nat), c ≠ unitvar →
        execute_trivial (.mk [c] [] [.var c] []) none [v] [.shaped dt sh]
          [aval_to_result_handler none (.shaped dt sh)] [] [] = .ok [v])
    ∧ (∀ (v : Value) (dt : String) (sh : List Nat),
        execute_trivial (.mk [] [] [.lit v] []) none [] [.shaped dt sh]
          [aval_to_result_handler none (.shaped dt sh)] [] [] = .ok [v]) := by
  refine ⟨?_, ?_, ?_⟩
  · unfold lower_xla_callable
    rw [h0]
    simp only [Bool.false_eq_true, if_false, h1, h2, if_true]
  · intro v c dt sh hc
    have hc' : ¬ ((0 : Nat) = c) := fun h => hc (by simp [unitvar, h.symm])
    simp [execute_trivial, filterIdx, filterIdxFrom, Jaxpr.invars,
      Jaxpr.constvars, Jaxpr.outvars, trivial_outs, lookupAssocV, unitvar,
      hc', aval_to_result_handler, device_put, canonicalize_dtype,
      copy_device_array_to_device]
  · intro v dt sh
    simp [execute_trivial, filterIdx, filterIdxFrom, Jaxpr.invars,
      Jaxpr.constvars, Jaxpr.outvars, trivial_outs, lookupAssocV, unitvar,
      aval_to_result_handler, device_put, canonicalize_dtype,
      copy_device_array_to_device]

/-- C5 witness: lowering the constant-output fixture yields the trivial
artifact with zero builder invocations, and executing it returns the
constant unchanged. -/
theorem c5_trivial_witness :
    lower_xla_callable fxEnv fxTrivInp =
      (.ok (.trivialComp (.mk [5] [] [.var 5] []) [fxConst] none [] [fxF32] []), 0)
    ∧ execute_trivial (.mk [5] [] [.var 5] []) none [fxConst]
        [.shaped "float32" []]
        [aval_to_result_handler none (.shaped "float32" [])] [] []
      = .ok [fxConst] :=
  ⟨(c5_trivial_shortcircuit fxEnv fxTrivInp none rfl rfl rfl).1,
    (c5_trivial_shortcircuit fxEnv fxTrivInp none rfl rfl rfl).2.1 fxConst 5
      "float32" [] (by decide)⟩

/-! ### C8 — replica/device validation -/

/-- C8: for a non-trivial pruned program, lowering fails with a
`ValueError` before any builder invocation when the replica count exceeds
the resolved backend's device count, and fails with a
`NotImplementedError` (again before any builder invocation) when several
host processes participate and the program is replicated and contains a
pmap construct. -/
theorem c8_replica_validation (env : XlaEnv) (inp : LowerInput)
    (dev : Option Device)
    (h0 : (inp.device.isSome && inp.backend.isSome) = false)
    (h1 : resolved_device env inp = .ok dev)
    (h2 : (prunedTriple inp).1.eqns.isEmpty = false) :
    (env.deviceCount (backend_of env inp dev) < nreps_of inp →
      lower_xla_callable env inp =
        (.error (.valueError ("compiling computation " ++ inp.name ++
          " that requires " ++ toString (nreps_of inp) ++ " replicas, but only "
          ++ toString (env.deviceCount (backend_of env inp dev))
          ++ " XLA devices are available.")), 0))
    ∧ (¬ env.deviceCount (backend_of env inp dev) < nreps_of inp →
        1 < env.processCount → 1 < nreps_of inp →
        jaxpr_has_pmap (prunedTriple inp).1 = true →
        lower_xla_callable env inp =
          (.error (.notImplementedError "jit of multi-host pmap not implemented (and jit-of-pmap can cause extra data movement anyway, so maybe you do not want it after all)."), 0)) := by
  constructor
  · intro hlt
    unfold lower_xla_callable
    rw [h0]
    simp only [Bool.false_eq_true, if_false, h1, h2, hlt, if_true]
  · intro hge hproc hnr hpmap
    unfold lower_xla_callable
    rw [h0]
    simp only [Bool.false_eq_true, if_false, h1, h2]
    rw [if_neg hge, if_pos ⟨hproc, Or.inl hnr⟩]

/-- C8 witness: the 4-replica pmap program fails with the replica-count
`ValueError` on a 1-device backend, and with the multi-host
`NotImplementedError` on a 2-process 4-device backend — in both cases with
zero builder invocations. -/
theorem c8_replica_validation_witness :
    lower_xla_callable fxEnv fxPmapInp =
      (.error (.valueError "compiling computation pm that requires 4 replicas, but only 1 XLA devices are available."), 0)
    ∧ lower_xla_callable fxEnvMulti fxPmapInp =
      (.error (.notImplementedError "jit of multi-host pmap not implemented (and jit-of-pmap can cause extra data movement anyway, so maybe you do not want it after all)."), 0) :=
  ⟨(c8_replica_validation fxEnv fxPmapInp none rfl rfl rfl).1 (by decide),
    (c8_replica_validation fxEnvMulti fxPmapInp none rfl rfl rfl).2
      (by decide) (by decide) (by decide) rfl⟩

/-! ### C9 — tuple-argument threshold -/

/-- C9: a successful non-trivial lowering records `tuple_args` — the
request that the backend accept inputs as a single tuple — exactly when
the number of retained inputs exceeds 100; at or below 100 the arguments
are passed individually. -/
theorem c9_tuple_args_threshold (env : XlaEnv) (inp : LowerInput)
    (dev : Option Device)
    (h0 : (inp.device.isSome && inp.backend.isSome) = false)
    (h1 : resolved_device env inp = .ok dev)
    (h2 : (prunedTriple inp).1.eqns.isEmpty = false)
    (h3 : ¬ env.deviceCount (backend_of env inp dev) < nreps_of inp)
    (h4 : ¬ (1 < env.processCount ∧
      (1 < nreps_of inp ∨ jaxpr_has_pmap (prunedTriple inp).1 = true))) :
    lower_xla_callable env inp =
      (.ok (.compiledComp (nreps_of inp) (backend_of env inp dev)
        (decide (100 < (kept_abstract_args inp).length)) dev
        (kept_abstract_args inp) inp.out_avals (prunedTriple inp).2.2), 1)
    ∧ decide (100 < (100 : Nat)) = false
    ∧ decide (100 < (101 : Nat)) = true := by
  refine ⟨?_, by decide, by decide⟩
  unfold lower_xla_callable
  rw [h0]
  simp only [Bool.false_eq_true, if_false, h1, h2]
  rw [if_neg h3, if_neg h4]

/-- C9 witness: the two-argument add program compiles with
`tuple_args = false` (2 retained inputs, below the threshold) and one
builder invocation. -/
theorem c9_tuple_args_witness :
    lower_xla_callable fxEnv fxAddInp =
      (.ok (.compiledComp 1 0 false none [fxF32, fxF32] [fxF32] [0, 1]), 1) :=
  (c9_tuple_args_threshold fxEnv fxAddInp none rfl rfl rfl (by decide)
    (by decide)).1

/-! ### C6 — NaN/Inf checking -/

/-- C6 counterexample: with `jax_debug_nans` enabled, the NaN check fires
on a NaN buffer, yet the trivial execution strategy returns a NaN
constant untouched — it applies no numerical-health check, so not all
three strategies do. -/
theorem c6_check_special_counterexample :
    needs_check_special fxCfgNan = true
    ∧ check_special fxCfgNan "jit_f" [fxNan] =
        .error (.floatingPointError "invalid value (nan) encountered in jit_f")
    ∧ execute_trivial fxTrivJ none [fxNan] [fxF32]
        [aval_to_result_handler none fxF32] [] [] = .ok [fxNan] :=
  ⟨rfl, rfl, rfl⟩

/-- C6 (amended): the two compiled strategies (single-device and
multi-replica) apply `check_special` over the raw output buffers before
any result handler runs, whenever a debug flag is enabled; the check only
ever raises a `FloatingPointError`, which is distinct from the
`TypeError`s of result handling, and is skipped entirely when no debug
flag is set.  The trivial strategy performs no such check. -/
theorem c6_check_special_before_handlers :
    (∀ (cfg : JaxConfig) (name : String) (compiled : XlaExecutableModel)
      (obc : Option (List Nat)) (handlers : List (List Value → Value))
      (kept : List Nat) (args : List Value) (d : Device) (e : DispatchError),
      compiled.local_devices = [d] →
      check_special cfg name
        (compiled.execute (input_bufs kept (some d) args)) = .error e →
      execute_compiled cfg name compiled obc handlers kept args = .error e)
    ∧ (∀ (cfg : JaxConfig) (name : String) (compiled : XlaExecutableModel)
      (obc : Option (List Nat)) (handlers : List (List Value → Value))
      (kept : List Nat) (args : List Value) (bufs : List Value)
      (e : DispatchError),
      replicated_out_bufs compiled kept args = some bufs →
      check_special cfg name bufs = .error e →
      execute_replicated cfg name compiled obc handlers kept args = .error e)
    ∧ (∀ (cfg : JaxConfig) (name : String) (bufs : List Value)
      (e : DispatchError), check_special cfg name bufs = .error e →
      ∃ msg, e = .floatingPointError msg)
    ∧ (∀ (cfg : JaxConfig) (name : String) (bufs : List Value),
      needs_check_special cfg = false → check_special cfg name bufs = .ok ())
    ∧ (∀ m m' : String,
      DispatchError.floatingPointError m ≠ DispatchError.typeError m') := by
  refine ⟨?_, ?_, ?_, ?_, ?_⟩
  · intro cfg name compiled obc handlers kept args d e hld hcs
    unfold execute_compiled
    rw [hld]
    simp only [hcs]
  · intro cfg name compiled obc handlers kept args bufs e hbufs hcs
    unfold execute_replicated
    rw [hbufs]
    simp only [hcs]
  · intro cfg name bufs e h
    unfold check_special at h
    by_cases hn : needs_check_special cfg = true
    · rw [if_pos hn] at h
      exact check_special_list_error_fp cfg name bufs e h
    · rw [if_neg hn] at h
      cases h
  · intro cfg name bufs h
    unfold check_special
    rw [h]
    rfl
  · intro m m' h
    cases h

/-- C6 witness: a single-device executable producing a NaN buffer fails
with the `FloatingPointError` under debug-NaN mode before any handler
runs. -/
theorem c6_check_special_witness :
    fxExec.local_devices = [0]
    ∧ check_special fxCfgNan "f" (fxExec.execute (input_bufs [] (some 0) [])) =
        .error (.floatingPointError "invalid value (nan) encountered in f")
    ∧ execute_compiled fxCfgNan "f" fxExec none [fun _ => dummyValue] [] [] =
        .error (.floatingPointError "invalid value (nan) encountered in f") :=
  ⟨rfl, rfl,
    c6_check_special_before_handlers.1 fxCfgNan "f" fxExec none
      [fun _ => dummyValue] [] [] 0 _ rfl rfl⟩

/-! ### C7 — call-time type check -/

/-- C7 counterexample: a call with the wrong argument count fails with a
`TypeError` whose message names the expected and actual counts but not the
expected or actual types — the expected type description `int32[]` does
not occur in it, so the claim that any count mismatch yields a message
naming both types is false. -/
theorem c7_call_check_counterexample :
    XlaCompiledComputation.call fxCountComp [fxVI32] =
      .error (.typeError (countMismatchMsg 2 1))
    ∧ countMismatchMsg 2 1 = "Computation compiled for 2 inputs but called with 1"
    ∧ aval_str fxI32 = "int32[]"
    ∧ containsSub (aval_str fxI32).toList (countMismatchMsg 2 1).toList = false :=
  ⟨rfl, rfl, rfl, by decide⟩

/-- C7 (amended): every call re-fingerprints its arguments and checks the
kept ones against the recorded input avals, independently of the cache-key
check (the check runs in `call` unconditionally, for every strategy); a
count mismatch raises a `TypeError` naming the expected and actual counts,
a type mismatch raises a `TypeError` whose message is built from both the
expected and the actual full aval lists; matching avals pass; the
comparison reads structural types only, never devices. -/
theorem c7_call_check_messages :
    (∀ refA argA : List Aval, refA.length ≠ argA.length →
      check_arg_avals_for_call refA argA =
        .error (.typeError (countMismatchMsg refA.length argA.length)))
    ∧ (∀ refA argA : List Aval, refA.length = argA.length → refA ≠ argA →
      check_arg_avals_for_call refA argA =
        .error (.typeError (typeMismatchMsg refA argA)))
    ∧ (∀ refA : List Aval, check_arg_avals_for_call refA refA = .ok ())
    ∧ (∀ (c : XlaCompiledComputation) (args : List Value) (e : DispatchError),
        call_check c args = .error e → c.call args = .error e)
    ∧ (∀ (c : XlaCompiledComputation) (args : List Value),
        call_check c args = .ok () → c.call args = c.unsafe_call args)
    ∧ (∀ (c : XlaCompiledComputation) (args args' : List Value),
        args.map (fun v => v.aval) = args'.map (fun v => v.aval) →
        call_check c args = call_check c args') := by
  refine ⟨?_, ?_, ?_, ?_, ?_, ?_⟩
  · intro refA argA h
    unfold check_arg_avals_for_call
    rw [if_pos h]
  · intro refA argA hlen hne
    unfold check_arg_avals_for_call
    rw [if_neg (fun hc => hc hlen)]
    rw [if_neg (fun hall => hne ((zip_all_typematch refA argA hlen).mp hall))]
  · intro refA
    unfold check_arg_avals_for_call
    rw [if_neg (fun hc => hc rfl)]
    rw [if_pos ((zip_all_typematch refA refA rfl).mpr rfl)]
  · intro c args e h
    unfold XlaCompiledComputation.call
    rw [h]
  · intro c args h
    unfold XlaCompiledComputation.call
    rw [h]
  · intro c args args' h
    unfold call_check
    rw [kept_arg_avals_eq c args, kept_arg_avals_eq c args', h]

/-- C7 witness: a count mismatch names 1 and 2; a type mismatch between a
recorded float32 and a supplied int32 produces the message listing both
full aval lists. -/
theorem c7_call_check_witness :
    ([fxI32].length ≠ [fxI32, fxI32].length)
    ∧ check_arg_avals_for_call [fxI32] [fxI32, fxI32] =
        .error (.typeError (countMismatchMsg 1 2))
    ∧ check_arg_avals_for_call [fxF32] [fxI32] =
        .error (.typeError (typeMismatchMsg [fxF32] [fxI32]))
    ∧ typeMismatchMsg [fxF32] [fxI32] =
        "Computation compiled for input types:\n  float32[]\ncalled with:\n  int32[]"
    ∧ check_arg_avals_for_call [fxF32] [fxF32] = .ok () :=
  ⟨by decide,
    c7_call_check_messages.1 [fxI32] [fxI32, fxI32] (by decide),
    c7_call_check_messages.2.1 [fxF32] [fxI32] rfl (by decide),
    rfl,
    c7_call_check_messages.2.2.1 [fxF32]⟩

/-! ### C10 — only kept arguments are type-checked -/

/-- C10: the call-time check validates only the arguments at kept indices:
when the kept arguments match the recorded avals the call proceeds to the
execution strategy whatever sits at pruned positions, and replacing the
argument at a pruned index by values of unrelated types never changes the
outcome of the check. -/
theorem c10_pruned_args_unchecked :
    (∀ (c : XlaCompiledComputation) (args : List Value),
      call_check c args = .ok () → c.call args = c.unsafe_call args)
    ∧ (∀ (c : XlaCompiledComputation) (args : List Value) (i : Nat)
        (x y : Value), ¬ i ∈ c.kept_var_idx →
        call_check c (args.set i x) = call_check c (args.set i y))
    ∧ (∀ (c : XlaCompiledComputation) (args args' : List Value),
        kept_arg_avals c args = kept_arg_avals c args' →
        call_check c args = call_check c args') := by
  refine ⟨?_, ?_, ?_⟩
  · intro c args h
    unfold XlaCompiledComputation.call
    rw [h]
  · intro c args i x y hi
    unfold call_check
    rw [kept_arg_avals_eq, kept_arg_avals_eq, List.map_set, List.map_set]
    unfold filterIdx
    have hfalse : (fun j => decide (j ∈ c.kept_var_idx)) (0 + i) = false := by
      rw [Nat.zero_add]
      exact decide_eq_false hi
    rw [filterIdxFrom_set (fun j => decide (j ∈ c.kept_var_idx))
      (args.map fun v => v.aval) x.aval 0 i hfalse]
    rw [filterIdxFrom_set (fun j => decide (j ∈ c.kept_var_idx))
      (args.map fun v => v.aval) y.aval 0 i hfalse]
  · intro c args args' h
    unfold call_check
    rw [h]

/-- C10 witness: on an artifact keeping only index 0 (a float32), calls
whose pruned second argument is an int32 or a bool both pass the check and
proceed; replacing the pruned argument changes nothing in the check. -/
theorem c10_pruned_args_witness :
    call_check fxCallComp [fxVF32, fxVI32] = .ok ()
    ∧ call_check fxCallComp [fxVF32, fxVBool] = .ok ()
    ∧ XlaCompiledComputation.call fxCallComp [fxVF32, fxVI32] = .ok []
    ∧ XlaCompiledComputation.call fxCallComp [fxVF32, fxVBool] = .ok []
    ∧ ¬ (1 : Nat) ∈ fxCallComp.kept_var_idx
    ∧ call_check fxCallComp ([fxVF32, dummyValue].set 1 fxVI32) =
        call_check fxCallComp ([fxVF32, dummyValue].set 1 fxVBool) :=
  ⟨rfl, rfl,
    c10_pruned_args_unchecked.1 fxCallComp [fxVF32, fxVI32] rfl,
    c10_pruned_args_unchecked.1 fxCallComp [fxVF32, fxVBool] rfl,
    by decide,
    c10_pruned_args_unchecked.2.1 fxCallComp [fxVF32, dummyValue] 1 fxVI32
      fxVBool (by decide)⟩

/-! ### C1 — compile-once caching -/

/-- C1: equal fingerprinted argument specs produce an equal cache key;
for any cache state, two successive calls with an equal key return the
same artifact, leave the cache unchanged after the first call, and invoke
the builder at most once across both; from an empty cache, two calls with
one key build exactly once, and a further call whose key differs in some
argument dtype misses and invokes the builder again. -/
theorem c1_cache_memoization (s : CacheState) (fid : Nat) (dv : Option Device)
    (bk : Option Nat) (nm : String) (don : List Bool)
    (args1 args2 : List Value) (k' : CacheKey) (i : Nat) (d₁ d₂ : String)
    (sh₁ sh₂ : List Nat) (od₁ od₂ : Option Device)
    (hargs : args1.map arg_spec = args2.map arg_spec)
    (h1 : (call_cache_key fid dv bk nm don args1).arg_specs.get? i =
      some (.shaped d₁ sh₁, od₁))
    (h2 : k'.arg_specs.get? i = some (.shaped d₂ sh₂, od₂))
    (hd : d₁ ≠ d₂) :
    (call_cache_key fid dv bk nm don args2 = call_cache_key fid dv bk nm don args1)
    ∧ (∀ k : CacheKey,
        (xla_callable_cached (xla_callable_cached s k).2 k).1 =
          (xla_callable_cached s k).1
        ∧ (xla_callable_cached (xla_callable_cached s k).2 k).2 =
          (xla_callable_cached s k).2
        ∧ (xla_callable_cached s k).2.builds ≤ s.builds + 1)
    ∧ (xla_callable_cached emptyCache
        (call_cache_key fid dv bk nm don args1)).2.builds = 1
    ∧ (xla_callable_cached
        (xla_callable_cached emptyCache (call_cache_key fid dv bk nm don args1)).2
        (call_cache_key fid dv bk nm don args1)).1 =
      (xla_callable_cached emptyCache (call_cache_key fid dv bk nm don args1)).1
    ∧ (xla_callable_cached
        (xla_callable_cached emptyCache (call_cache_key fid dv bk nm don args1)).2
        (call_cache_key fid dv bk nm don args1)).2.builds = 1
    ∧ (xla_callable_cached
        (xla_callable_cached
          (xla_callable_cached emptyCache (call_cache_key fid dv bk nm don args1)).2
          (call_cache_key fid dv bk nm don args1)).2 k').2.builds = 2 := by
  have hne : ¬ (call_cache_key fid dv bk nm don args1 = k') := by
    intro he
    rw [he] at h1
    rw [h1] at h2
    simp only [Option.some.injEq, Prod.mk.injEq, Aval.shaped.injEq] at h2
    exact hd h2.1.1
  have e1 : xla_callable_cached emptyCache (call_cache_key fid dv bk nm don args1)
      = (0, { entries := [(call_cache_key fid dv bk nm don args1, 0)],
              builds := 1 }) := rfl
  have e2 : xla_callable_cached
      (xla_callable_cached emptyCache (call_cache_key fid dv bk nm don args1)).2
      (call_cache_key fid dv bk nm don args1)
      = (0, { entries := [(call_cache_key fid dv bk nm don args1, 0)],
              builds := 1 }) := by
    rw [e1]
    simp [xla_callable_cached, assocFind]
  refine ⟨?_, ?_, ?_, ?_, ?_, ?_⟩
  · simp [call_cache_key, hargs]
  · intro k
    cases h : assocFind s.entries k with
    | some a =>
      refine ⟨?_, ?_, ?_⟩
      · simp [xla_callable_cached, h]
      · simp [xla_callable_cached, h]
      · simp only [xla_callable_cached, h]
        omega
    | none =>
      refine ⟨?_, ?_, ?_⟩
      · simp [xla_callable_cached, h, assocFind]
      · simp [xla_callable_cached, h, assocFind]
      · simp only [xla_callable_cached, h]
        omega
  · rw [e1]
  · rw [e2, e1]
  · rw [e2]
  · rw [e2]
    simp [xla_callable_cached, assocFind, hne]

/-- C1 witness: with one float32 argument, two calls from the empty cache
build once and return the same artifact; a third call whose single
argument spec is int32 instead of float32 triggers a second build. -/
theorem c1_cache_witness :
    ([fxVF32].map arg_spec = [fxVF32b].map arg_spec)
    ∧ (call_cache_key 0 none none "f" [] [fxVF32b] =
        call_cache_key 0 none none "f" [] [fxVF32])
    ∧ (xla_callable_cached emptyCache
        (call_cache_key 0 none none "f" [] [fxVF32])).2.builds = 1
    ∧ (xla_callable_cached
        (xla_callable_cached emptyCache (call_cache_key 0 none none "f" [] [fxVF32])).2
        (call_cache_key 0 none none "f" [] [fxVF32])).1 =
      (xla_callable_cached emptyCache (call_cache_key 0 none none "f" [] [fxVF32])).1
    ∧ (xla_callable_cached
        (xla_callable_cached
          (xla_callable_cached emptyCache (call_cache_key 0 none none "f" [] [fxVF32])).2
          (call_cache_key 0 none none "f" [] [fxVF32])).2
        (call_cache_key 0 none none "f" [] [fxVI32])).2.builds = 2 :=
  ⟨rfl,
    (c1_cache_memoization emptyCache 0 none none "f" [] [fxVF32] [fxVF32b]
      (call_cache_key 0 none none "f" [] [fxVI32]) 0 "float32" "int32" [] []
      none none rfl rfl rfl (by decide)).1,
    (c1_cache_memoization emptyCache 0 none none "f" [] [fxVF32] [fxVF32b]
      (call_cache_key 0 none none "f" [] [fxVI32]) 0 "float32" "int32" [] []
      none none rfl rfl rfl (by decide)).2.2.1,
    (c1_cache_memoization emptyCache 0 none none "f" [] [fxVF32] [fxVF32b]
      (call_cache_key 0 none none "f" [] [fxVI32]) 0 "float32" "int32" [] []
      none none rfl rfl rfl (by decide)).2.2.2.1,
    (c1_cache_memoization emptyCache 0 none none "f" [] [fxVF32] [fxVF32b]
      (call_cache_key 0 none none "f" [] [fxVI32]) 0 "float32" "int32" [] []
      none none rfl rfl rfl (by decide)).2.2.2.2.2⟩

end JaxDispatch
